import Mathlib

set_option maxRecDepth 4000

/-!
Shallow embedding of the client polling / UI reconciliation loop of
`src/static/js/app.js` (class `VibeProjector`).

Conventions of the embedding:
* the instance fields of `VibeProjector` and the DOM cells its methods write
  (textContent, style.display, class lists, the toast container) are collected
  in the state record `VPState`;
* JS numbers that only ever hold integers (`retryCount`, `maxRetries`,
  millisecond values) are embedded as `Nat`/`Int`; the one real division,
  `(progressMs / durationMs) * 100` in `updateProgress`, is embedded over `Rat`
  (exact arithmetic in place of IEEE doubles, which agree on the small integer
  inputs considered here);
* the asynchronous `fetchNowPlaying` is split exactly as the source sequences
  it: a synchronous prefix that runs when the call is issued (the
  `retryCount = 0; networkError = false;` reset, modelled by `issuePoll`, which
  also counts issued requests), followed by processing of the settled response
  (`processResponse`); `fetchNowPlaying resp` is the complete attempt whose
  response turns out to be `resp`;
* `setTimeout` bookkeeping: scheduling a retry appends its delay to
  `pendingRetryTimeouts` (removed when the timer fires) and to the cumulative
  history `retryDelaysScheduled`; a toast's auto-dismiss timeout is appended to
  `pendingToastTimeouts`; the two `setInterval` timers are the flags
  `pollIntervalActive` / `videoIntervalActive`.
-/

/-- One toast notification created by `showToast`: its message and its
category string (`success` / `error` / `warning` / `info`). -/
structure Toast where
  message : String
  kind : String
deriving DecidableEq, Repr

/-- The parsed JSON body of a successful `/nowplaying` response, as read by
`updateUI` (the PlaybackSnapshot fields). String fields that may be absent or
null are `Option String`. -/
structure SnapshotData where
  error : Option String
  title : Option String
  artist : Option String
  isPlaying : Bool
  coverUrl : Option String
  progressMs : Int
  durationMs : Int
  deviceName : Option String
deriving DecidableEq, Repr

/-- The state of a `VibeProjector` instance: its own mutable fields
(`retryCount`, `maxRetries`, `networkError`, `isConnected`) plus the DOM cells
its methods assign (display styles, text contents, class lists, toasts) and
the timer bookkeeping described in the file header. -/
structure VPState where
  retryCount : Nat
  maxRetries : Nat
  networkError : Bool
  isConnected : Bool
  statusText : String
  statusBadgeClasses : List String
  loadingOverlayDisplay : String
  errorOverlayDisplay : String
  errorMessageText : String
  mainCardDisplay : String
  connectSectionDisplay : String
  trackTitleText : String
  trackArtistText : String
  coverImageDisplay : String
  coverPlaceholderDisplay : String
  coverImageSrc : String
  progressContainerDisplay : String
  progressFillWidthPercent : Rat
  currentTimeText : String
  totalTimeText : String
  deviceInfoText : String
  cardErrorClasses : List String
  toasts : List Toast
  pendingToastTimeouts : List Int
  pendingRetryTimeouts : List Int
  retryDelaysScheduled : List Int
  pollIntervalActive : Bool
  videoIntervalActive : Bool
  pollRequests : Nat
deriving DecidableEq, Repr

/-- The state right after the constructor has run its field assignments and
`startPolling` has installed the two intervals, before the initial
`fetchNowPlaying()` call: `retryCount = 0`, `maxRetries = 3`,
`networkError = false`, `isConnected = false`, no toasts and no pending
timeouts. DOM text/display cells start empty. -/
def initState : VPState where
  retryCount := 0
  maxRetries := 3
  networkError := false
  isConnected := false
  statusText := ""
  statusBadgeClasses := ["status-badge"]
  loadingOverlayDisplay := ""
  errorOverlayDisplay := ""
  errorMessageText := ""
  mainCardDisplay := ""
  connectSectionDisplay := ""
  trackTitleText := ""
  trackArtistText := ""
  coverImageDisplay := ""
  coverPlaceholderDisplay := ""
  coverImageSrc := ""
  progressContainerDisplay := ""
  progressFillWidthPercent := 0
  currentTimeText := ""
  totalTimeText := ""
  deviceInfoText := ""
  cardErrorClasses := []
  toasts := []
  pendingToastTimeouts := []
  pendingRetryTimeouts := []
  retryDelaysScheduled := []
  pollIntervalActive := true
  videoIntervalActive := true
  pollRequests := 0

/-- Whether the pattern is an initial segment of the text (character lists). -/
def charsStartWith : List Char → List Char → Bool
  | [], _ => true
  | _ :: _, [] => false
  | p :: ps, t :: ts => p == t && charsStartWith ps ts

/-- Whether the pattern occurs somewhere in the text (character lists). -/
def charsContain (pat : List Char) : List Char → Bool
  | [] => charsStartWith pat []
  | t :: ts => charsStartWith pat (t :: ts) || charsContain pat ts

/-- JS `s.includes(sub)`: substring containment. -/
def jsIncludes (s sub : String) : Bool :=
  charsContain sub.toList s.toList

/-- JS truthiness of a string-or-null field: `null`/`undefined` and the empty
string are falsy, every other string is truthy. -/
def jsTruthy : Option String → Bool
  | none => false
  | some s => s != ""

/-- JS `String.prototype.padStart(2, "0")`. -/
def padStart2 (s : String) : String :=
  if s.length ≥ 2 then s else String.mk (List.replicate (2 - s.length) '0') ++ s

/-- `formatTime(ms)`: seconds = `Math.floor(ms / 1000)` (floor division,
`Int.fdiv`), minutes = `Math.floor(seconds / 60)`, remaining seconds =
`seconds % 60` (JS remainder, sign of the dividend: `Int.tmod`), rendered as
`minutes:seconds` with the seconds part padded via `padStart(2, "0")`. -/
def formatTime (ms : Int) : String :=
  let seconds := Int.fdiv ms 1000
  let minutes := Int.fdiv seconds 60
  let remainingSeconds := Int.tmod seconds 60
  toString minutes ++ ":" ++ padStart2 (toString remainingSeconds)

/-- `updateStatus(status)`: reset the badge class list to `status-badge`,
then set the status text and add the matching class for the six known status
strings (an unknown status only resets the class list). -/
def updateStatus (status : String) (s : VPState) : VPState :=
  let s := { s with statusBadgeClasses := ["status-badge"] }
  if status = "playing" then
    { s with statusText := "Now Playing",
             statusBadgeClasses := s.statusBadgeClasses ++ ["playing"] }
  else if status = "paused" then
    { s with statusText := "Paused",
             statusBadgeClasses := s.statusBadgeClasses ++ ["paused"] }
  else if status = "connecting" then
    { s with statusText := "Connecting...",
             statusBadgeClasses := s.statusBadgeClasses ++ ["connecting"] }
  else if status = "nothing-playing" then
    { s with statusText := "Nothing Playing",
             statusBadgeClasses := s.statusBadgeClasses ++ ["nothing-playing"] }
  else if status = "network-error" then
    { s with statusText := "Network Error",
             statusBadgeClasses := s.statusBadgeClasses ++ ["network-error"] }
  else if status = "disconnected" then
    { s with statusText := "Not Connected",
             statusBadgeClasses := s.statusBadgeClasses ++ ["disconnected"] }
  else s

/-- `showToast(message, type, duration)`: append the toast to the container
and, when `duration > 0`, schedule its auto-dismiss timeout. -/
def showToastWithDuration (message kind : String) (duration : Int) (s : VPState) : VPState :=
  let s := { s with toasts := s.toasts ++ [{ message := message, kind := kind }] }
  if duration > 0 then
    { s with pendingToastTimeouts := s.pendingToastTimeouts ++ [duration] }
  else s

/-- `showToast(message, type)` with the default `duration = 5000`, as every
call site in the source uses it. -/
def showToast (message kind : String) (s : VPState) : VPState :=
  showToastWithDuration message kind 5000 s

/-- `updateTrackInfo(data)`: set title/artist text; show the cover image when
`coverUrl` is truthy, otherwise show the placeholder. -/
def updateTrackInfo (data : SnapshotData) (s : VPState) : VPState :=
  let s := { s with trackTitleText := data.title.getD "",
                    trackArtistText := data.artist.getD "" }
  if jsTruthy data.coverUrl then
    { s with coverImageSrc := data.coverUrl.getD "",
             coverImageDisplay := "block",
             coverPlaceholderDisplay := "none" }
  else
    { s with coverImageDisplay := "none",
             coverPlaceholderDisplay := "flex" }

/-- `updateProgress(progressMs, durationMs)`: when `durationMs > 0`, write the
fill width as `(progressMs / durationMs) * 100` percent (no clamping in the
source), set both time labels via `formatTime`, and show the progress
container; otherwise hide the container. -/
def updateProgress (progressMs durationMs : Int) (s : VPState) : VPState :=
  if durationMs > 0 then
    let progressPercent : Rat := ((progressMs : Rat) / (durationMs : Rat)) * 100
    { s with progressFillWidthPercent := progressPercent,
             currentTimeText := formatTime progressMs,
             totalTimeText := formatTime durationMs,
             progressContainerDisplay := "block" }
  else
    { s with progressContainerDisplay := "none" }

/-- `showMainCard()`: show the track card, hide the connect section. -/
def showMainCard (s : VPState) : VPState :=
  { s with mainCardDisplay := "block", connectSectionDisplay := "none" }

/-- `showNoTrackState()`: placeholder texts, placeholder cover, hide the
progress container, then `showMainCard()`. -/
def showNoTrackState (s : VPState) : VPState :=
  showMainCard
    { s with trackTitleText := "No Track Playing",
             trackArtistText := "Start playing music on Spotify",
             coverImageDisplay := "none",
             coverPlaceholderDisplay := "flex",
             progressContainerDisplay := "none",
             deviceInfoText := "No device connected" }

/-- `handleUnauthorized()`: hide the loading overlay and the card, show the
connect section, status `disconnected`, a warning toast, and mark the client
as not connected. -/
def handleUnauthorized (s : VPState) : VPState :=
  let s := { s with loadingOverlayDisplay := "none",
                    mainCardDisplay := "none",
                    connectSectionDisplay := "block" }
  let s := updateStatus "disconnected" s
  let s := showToast "Token expired — log in again" "warning" s
  { s with isConnected := false }

/-- `handleNetworkError()`: set the network-error flag, increment
`retryCount`; while `retryCount <= maxRetries` show the retrying toast and
schedule one retry after `2000 * retryCount` ms; past the budget show the
persistent failure toast instead, with no scheduled retry. -/
def handleNetworkError (s : VPState) : VPState :=
  let s := { s with networkError := true, retryCount := s.retryCount + 1 }
  if s.retryCount ≤ s.maxRetries then
    let s := updateStatus "network-error" s
    let s := showToast
      ("Network error, retrying... (" ++ toString s.retryCount ++ "/" ++
        toString s.maxRetries ++ ")") "warning" s
    { s with
        pendingRetryTimeouts := s.pendingRetryTimeouts ++ [2000 * (s.retryCount : Int)],
        retryDelaysScheduled := s.retryDelaysScheduled ++ [2000 * (s.retryCount : Int)] }
  else
    let s := showToast
      "Network connection failed. Please check your internet connection." "error" s
    updateStatus "network-error" s

/-- `handleError(message)`: hide the loading overlay; classify by substring —
messages containing `network` or `fetch` go to `handleNetworkError`, else
messages containing `unauthorized` or `401` go to `handleUnauthorized`, else
an error toast; afterwards, network/fetch messages additionally fill and show
the error overlay. -/
def handleError (message : String) (s : VPState) : VPState :=
  let s := { s with loadingOverlayDisplay := "none" }
  let s :=
    if jsIncludes message "network" || jsIncludes message "fetch" then
      handleNetworkError s
    else if jsIncludes message "unauthorized" || jsIncludes message "401" then
      handleUnauthorized s
    else
      showToast message "error" s
  if jsIncludes message "network" || jsIncludes message "fetch" then
    { s with errorMessageText := message, errorOverlayDisplay := "flex" }
  else s

/-- `clearCardErrorState()`: remove the error/warning classes from the card. -/
def clearCardErrorState (s : VPState) : VPState :=
  { s with cardErrorClasses := [] }

/-- `updateUI(data)`: a truthy `data.error` is routed to `handleError`;
otherwise hide the loading overlay, branch on truthy `title && artist`
(playing/paused toast + track info + card, versus the nothing-playing
placeholder), then unconditionally `updateProgress`, set the device label when
truthy, mark connected and clear the card error classes. -/
def updateUI (data : SnapshotData) (s : VPState) : VPState :=
  if jsTruthy data.error then
    handleError (data.error.getD "") s
  else
    let s := { s with loadingOverlayDisplay := "none" }
    let s :=
      if jsTruthy data.title && jsTruthy data.artist then
        let s :=
          if data.isPlaying then
            showToast ("Now playing: " ++ data.title.getD "") "success"
              (updateStatus "playing" s)
          else
            showToast ("Paused: " ++ data.title.getD "") "info"
              (updateStatus "paused" s)
        showMainCard (updateTrackInfo data s)
      else
        showNoTrackState
          (showToast "Nothing currently playing" "info"
            (updateStatus "nothing-playing" s))
    let s := updateProgress data.progressMs data.durationMs s
    let s :=
      if jsTruthy data.deviceName then
        { s with deviceInfoText := data.deviceName.getD "" }
      else s
    clearCardErrorState { s with isConnected := true }

/-- The settled outcome of one `fetch('/nowplaying')` as `fetchNowPlaying`
distinguishes them: status 401; a non-ok status (the thrown
`HTTP status: statusText` message lands in the catch block); a rejection of
the fetch itself (its message lands in the catch block); or an ok response
with a parsed JSON body. -/
inductive PollResponse where
  | http401 : PollResponse
  | httpError (status : Nat) (statusText : String) : PollResponse
  | transportFailure (message : String) : PollResponse
  | success (data : SnapshotData) : PollResponse
deriving DecidableEq, Repr

/-- The synchronous prefix of `fetchNowPlaying()` that runs when the call is
issued, before the `await`: `this.retryCount = 0; this.networkError = false;`.
`pollRequests` counts issued requests. -/
def issuePoll (s : VPState) : VPState :=
  { s with retryCount := 0, networkError := false, pollRequests := s.pollRequests + 1 }

/-- Processing of the settled response in `fetchNowPlaying`: 401 goes to
`handleUnauthorized`; a non-ok status throws `HTTP status: statusText`, caught
by `handleError`; a transport failure's message is caught by `handleError`; an
ok body goes to `updateUI`. -/
def processResponse (resp : PollResponse) (s : VPState) : VPState :=
  match resp with
  | .http401 => handleUnauthorized s
  | .httpError status statusText =>
      handleError ("HTTP " ++ toString status ++ ": " ++ statusText) s
  | .transportFailure message => handleError message s
  | .success data => updateUI data s

/-- One complete `fetchNowPlaying()` attempt whose response settles as
`resp`: the issue-time reset followed by response processing. -/
def fetchNowPlaying (resp : PollResponse) (s : VPState) : VPState :=
  processResponse resp (issuePoll s)

/-- The retry timeout scheduled by `handleNetworkError` fires: the timer
leaves the pending list; its callback re-polls only if `networkError` is
still set, and no-ops otherwise. -/
def retryTimerFire (resp : PollResponse) (s : VPState) : VPState :=
  let s := { s with pendingRetryTimeouts := s.pendingRetryTimeouts.tail }
  if s.networkError then fetchNowPlaying resp s else s

/-- `handleNetworkOnline()`: only when `networkError` is set — clear it,
reset `retryCount`, success toast, status `connecting`, and issue an
immediate poll; otherwise do nothing. -/
def handleNetworkOnline (s : VPState) : VPState :=
  if s.networkError then
    let s := { s with networkError := false, retryCount := 0 }
    let s := showToast "Network connection restored" "success" s
    let s := updateStatus "connecting" s
    issuePoll s
  else s

/-- `handleNetworkOffline()`: set the network-error flag, error toast, status
`network-error`; `retryCount` is not touched and no retry is scheduled. -/
def handleNetworkOffline (s : VPState) : VPState :=
  let s := { s with networkError := true }
  let s := showToast "Network connection lost" "error" s
  updateStatus "network-error" s

/-- `cleanup()`: clear the poll interval and the video-visibility interval.
Nothing else is cancelled. -/
def cleanup (s : VPState) : VPState :=
  { s with pollIntervalActive := false, videoIntervalActive := false }

/-- Follows the spec's wording for the time format: minutes and seconds by
floor division on milliseconds, joined as `minutes:seconds` with the seconds
zero-padded to two digits. -/
def formatTimeSpec (ms : Nat) : String :=
  toString (ms / 60000) ++ ":" ++ padStart2 (toString (ms / 1000 % 60))

/-- A transport-level poll failure as browsers report it: the rejection
message `Failed to fetch`, which `handleError` classifies as
network-attributable (it contains `fetch`). -/
def networkFailure : PollResponse := .transportFailure "Failed to fetch"

/-- First consecutive network failure: the interval poll from the initial
state fails at transport level. -/
def failedPoll1 : VPState := fetchNowPlaying networkFailure initState

/-- Second consecutive network failure: the retry scheduled by the first
failure fires and its poll fails the same way. -/
def failedPoll2 : VPState := retryTimerFire networkFailure failedPoll1

/-- Third consecutive network failure. -/
def failedPoll3 : VPState := retryTimerFire networkFailure failedPoll2

/-- Fourth consecutive network failure. -/
def failedPoll4 : VPState := retryTimerFire networkFailure failedPoll3

theorem fdiv_natCast (m n : Nat) :
    Int.fdiv (m : Int) (n : Int) = ((m / n : Nat) : Int) := by
  cases m with
  | zero =>
    show (0 : Int) = ((0 / n : Nat) : Int)
    rw [Nat.zero_div]
    rfl
  | succ k => rfl

theorem tmod_natCast (m n : Nat) :
    Int.tmod (m : Int) (n : Int) = ((m % n : Nat) : Int) := rfl

theorem toString_natCast (m : Nat) : toString ((m : Nat) : Int) = toString m := rfl

theorem formatTime_natCast (ms : Nat) : formatTime (ms : Int) = formatTimeSpec ms := by
  have hexp : formatTime (ms : Int) =
      toString (Int.fdiv (Int.fdiv (ms : Int) ((1000 : Nat) : Int)) ((60 : Nat) : Int)) ++ ":" ++
      padStart2 (toString (Int.tmod (Int.fdiv (ms : Int) ((1000 : Nat) : Int))
        ((60 : Nat) : Int))) := rfl
  rw [hexp, fdiv_natCast, fdiv_natCast, tmod_natCast, toString_natCast, toString_natCast,
      Nat.div_div_eq_div_mul]
  rfl

/-- C1: evaluating the code on three (and then four) consecutive
network-attributable poll failures. Contrary to the claim, every consecutive
failure schedules a retry after 2000 ms — the observed delays are 2 s, 2 s,
2 s, not 2 s, 4 s, 6 s — because `fetchNowPlaying` zeroes `retryCount` at the
start of each attempt, so `retryCount` is 1 after every failure, never
exceeds `maxRetries`, and the fourth failure still schedules another retry
instead of reaching the persistent no-retry branch. -/
theorem retry_backoff_code_eval :
    failedPoll1.retryDelaysScheduled = [2000] ∧
    failedPoll2.retryDelaysScheduled = [2000, 2000] ∧
    failedPoll3.retryDelaysScheduled = [2000, 2000, 2000] ∧
    failedPoll3.retryCount = 1 ∧
    failedPoll4.retryDelaysScheduled = [2000, 2000, 2000, 2000] ∧
    failedPoll4.retryCount = 1 ∧
    failedPoll4.pendingRetryTimeouts = [2000] := by decide

/-- C2: evaluating the code on two consecutive network-attributable poll
failures. Contrary to the claim, a failed poll attempt does not leave the
accumulated count intact: the reset sits at the top of `fetchNowPlaying` and
runs on every attempt (`issuePoll`), so the second consecutive failure again
ends with `retryCount = 1` and the count is not strictly increasing. -/
theorem retryCount_reset_on_failed_poll_code_eval :
    failedPoll1.retryCount = 1 ∧
    failedPoll2.retryCount = 1 ∧
    ¬ failedPoll1.retryCount < failedPoll2.retryCount ∧
    (issuePoll failedPoll1).retryCount = 0 := by decide

/-- C3 counterexample: for the snapshot values `progressMs = 150`,
`durationMs = 100` the width written to the progress fill is 150 percent —
the displayed ratio exceeds 1, so it is not clamped to `[0, 1]` as the claim
states. -/
theorem progress_ratio_unclamped_counterexample :
    (updateProgress 150 100 initState).progressFillWidthPercent = 150 ∧
    ¬ (updateProgress 150 100 initState).progressFillWidthPercent ≤ 100 := by
  have h : (updateProgress 150 100 initState).progressFillWidthPercent =
      ((150 : Rat) / (100 : Rat)) * 100 := rfl
  rw [h]
  norm_num

/-- C3 (amended): for every snapshot with `durationMs > 0` the width percent
written to the progress fill equals `progressMs / durationMs * 100` exactly,
with no clamping, and the progress container is shown. -/
theorem progress_ratio_exact_unclamped (p d : Int) (s : VPState) (hd : 0 < d) :
    (updateProgress p d s).progressFillWidthPercent = ((p : Rat) / (d : Rat)) * 100 ∧
    (updateProgress p d s).progressContainerDisplay = "block" := by
  simp [updateProgress, hd]

/-- C3 witness: the amended statement evaluated at `progressMs = 150`,
`durationMs = 100`. -/
theorem progress_ratio_exact_unclamped_witness :
    (0 : Int) < 100 ∧
    ((updateProgress 150 100 initState).progressFillWidthPercent =
        ((150 : Rat) / (100 : Rat)) * 100 ∧
      (updateProgress 150 100 initState).progressContainerDisplay = "block") :=
  ⟨by decide, progress_ratio_exact_unclamped 150 100 initState (by decide)⟩

/-- C4: an HTTP 401 response to a poll, from any state, lands in the
unauthorized handling — status `Not Connected`, connect section shown, card
hidden, not connected — is not treated as a network error (flag cleared, no
retry scheduled), and does not increment `retryCount` (the attempt leaves it
at 0, which is never `retryCount + 1`). -/
theorem unauthorized_poll_does_not_touch_retry (s : VPState) :
    (fetchNowPlaying .http401 s).statusText = "Not Connected" ∧
    (fetchNowPlaying .http401 s).connectSectionDisplay = "block" ∧
    (fetchNowPlaying .http401 s).mainCardDisplay = "none" ∧
    (fetchNowPlaying .http401 s).isConnected = false ∧
    (fetchNowPlaying .http401 s).networkError = false ∧
    (fetchNowPlaying .http401 s).retryCount = 0 ∧
    (fetchNowPlaying .http401 s).retryCount ≠ s.retryCount + 1 ∧
    (fetchNowPlaying .http401 s).pendingRetryTimeouts = s.pendingRetryTimeouts ∧
    (fetchNowPlaying .http401 s).retryDelaysScheduled = s.retryDelaysScheduled := by
  refine ⟨rfl, rfl, rfl, rfl, rfl, rfl, ?_, rfl, rfl⟩
  have h : (fetchNowPlaying .http401 s).retryCount = 0 := rfl
  omega

/-- C5: the browser `online` event, exactly when the network-error flag is
set, clears the flag, resets `retryCount` to 0 and issues an immediate poll;
when the flag is not set the handler changes nothing. -/
theorem online_event_resets_and_repolls :
    (∀ s : VPState, s.networkError = true →
      (handleNetworkOnline s).networkError = false ∧
      (handleNetworkOnline s).retryCount = 0 ∧
      (handleNetworkOnline s).pollRequests = s.pollRequests + 1) ∧
    (∀ s : VPState, s.networkError = false → handleNetworkOnline s = s) := by
  constructor
  · intro s h
    simp [handleNetworkOnline, h, showToast, showToastWithDuration, updateStatus, issuePoll]
  · intro s h
    simp [handleNetworkOnline, h]

/-- The state after the browser `offline` event fired in the initial state:
a concrete state whose network-error flag is set. -/
def offlineState : VPState := handleNetworkOffline initState

/-- C5 witness: the theorem applied to the concrete network-error state
`offlineState` and to the concrete non-error state `initState`. -/
theorem online_event_resets_and_repolls_witness :
    ((handleNetworkOnline offlineState).networkError = false ∧
      (handleNetworkOnline offlineState).retryCount = 0 ∧
      (handleNetworkOnline offlineState).pollRequests = offlineState.pollRequests + 1) ∧
    handleNetworkOnline initState = initState :=
  ⟨online_event_resets_and_repolls.1 offlineState rfl,
    online_event_resets_and_repolls.2 initState rfl⟩

/-- C6 counterexample: after one failed poll there is a pending retry
timeout and a pending toast auto-dismiss timeout; `cleanup` leaves both
pending, and the pending retry callback still fires and issues another poll
after cleanup — so not every timer created by the component is cancelled on
teardown. -/
theorem cleanup_leaves_pending_timers_counterexample :
    (cleanup failedPoll1).pendingRetryTimeouts = [2000] ∧
    (cleanup failedPoll1).pendingToastTimeouts = [5000] ∧
    (retryTimerFire networkFailure (cleanup failedPoll1)).pollRequests =
      (cleanup failedPoll1).pollRequests + 1 := by decide

/-- C6 (amended): `cleanup` cancels exactly the two intervals — the poll
interval and the video-visibility interval — and leaves any pending
retry-backoff and toast auto-dismiss timeouts (and all other state)
untouched. -/
theorem cleanup_only_clears_intervals (s : VPState) :
    (cleanup s).pollIntervalActive = false ∧
    (cleanup s).videoIntervalActive = false ∧
    (cleanup s).pendingRetryTimeouts = s.pendingRetryTimeouts ∧
    (cleanup s).pendingToastTimeouts = s.pendingToastTimeouts ∧
    (cleanup s).retryCount = s.retryCount ∧
    (cleanup s).networkError = s.networkError := by
  refine ⟨?_, ?_, ?_, ?_, ?_, ?_⟩ <;> rfl

/-- C7: for every non-negative millisecond value the formatter agrees with
the spec's description (minutes and seconds by floor division, seconds
zero-padded to two digits), and the three spec examples hold: 65000 ms is
`1:05`, 5000 ms is `0:05`, 600000 ms is `10:00`. -/
theorem formatTime_matches_spec :
    (∀ ms : Nat, formatTime (ms : Int) = formatTimeSpec ms) ∧
    formatTime 65000 = "1:05" ∧
    formatTime 5000 = "0:05" ∧
    formatTime 600000 = "10:00" :=
  ⟨formatTime_natCast, by decide, by decide, by decide⟩

/-- C8: for every snapshot with `durationMs ≤ 0` the progress container is
hidden and nothing else of the progress display is touched — the fill width
(no 0 % bar, no division) and both time labels keep their previous values. -/
theorem nonpositive_duration_hides_progress (p d : Int) (s : VPState) (hd : d ≤ 0) :
    (updateProgress p d s).progressContainerDisplay = "none" ∧
    (updateProgress p d s).progressFillWidthPercent = s.progressFillWidthPercent ∧
    (updateProgress p d s).currentTimeText = s.currentTimeText ∧
    (updateProgress p d s).totalTimeText = s.totalTimeText := by
  have h : ¬ (d > 0) := by omega
  simp [updateProgress, h]

/-- C8 witness: the theorem applied at `progressMs = 5`, `durationMs = 0` in
the initial state. -/
theorem nonpositive_duration_hides_progress_witness :
    (0 : Int) ≤ 0 ∧
    ((updateProgress 5 0 initState).progressContainerDisplay = "none" ∧
      (updateProgress 5 0 initState).progressFillWidthPercent =
        initState.progressFillWidthPercent ∧
      (updateProgress 5 0 initState).currentTimeText = initState.currentTimeText ∧
      (updateProgress 5 0 initState).totalTimeText = initState.totalTimeText) :=
  ⟨le_refl 0, nonpositive_duration_hides_progress 5 0 initState (le_refl 0)⟩

/-- C9: for every successful snapshot (no error) with falsy title and artist
but `durationMs > 0`, `updateUI` ends with the progress container displayed —
`showNoTrackState` hides it, but the unconditional `updateProgress` call that
follows re-shows it — so the no-track placeholder is rendered together with a
progress bar. -/
theorem no_track_snapshot_reshows_progress (data : SnapshotData) (s : VPState)
    (he : jsTruthy data.error = false)
    (ht : jsTruthy data.title = false)
    (ha : jsTruthy data.artist = false)
    (hd : 0 < data.durationMs) :
    (updateUI data s).progressContainerDisplay = "block" ∧
    (updateUI data s).trackTitleText = "No Track Playing" ∧
    (updateUI data s).trackArtistText = "Start playing music on Spotify" ∧
    (updateUI data s).mainCardDisplay = "block" := by
  cases hdn : jsTruthy data.deviceName <;>
    simp [updateUI, he, ht, ha, hd, hdn, showNoTrackState, showMainCard, showToast,
      showToastWithDuration, updateStatus, updateProgress, clearCardErrorState]

/-- A successful snapshot with nothing playing but a positive duration. -/
def noTrackSnapshot : SnapshotData where
  error := none
  title := none
  artist := none
  isPlaying := false
  coverUrl := none
  progressMs := 30000
  durationMs := 180000
  deviceName := none

/-- C9 witness: the theorem applied to the concrete no-track snapshot with
`durationMs = 180000` in the initial state. -/
theorem no_track_snapshot_reshows_progress_witness :
    (jsTruthy noTrackSnapshot.error = false ∧
      jsTruthy noTrackSnapshot.title = false ∧
      jsTruthy noTrackSnapshot.artist = false ∧
      (0 : Int) < noTrackSnapshot.durationMs) ∧
    ((updateUI noTrackSnapshot initState).progressContainerDisplay = "block" ∧
      (updateUI noTrackSnapshot initState).trackTitleText = "No Track Playing" ∧
      (updateUI noTrackSnapshot initState).trackArtistText =
        "Start playing music on Spotify" ∧
      (updateUI noTrackSnapshot initState).mainCardDisplay = "block") :=
  ⟨⟨rfl, rfl, rfl, by decide⟩,
    no_track_snapshot_reshows_progress noTrackSnapshot initState rfl rfl rfl (by decide)⟩

/-- C10: the browser `offline` event sets the network-error flag and the
status to `Network Error`, and changes nothing about the retry machinery —
`retryCount`, the pending and scheduled retry timeouts, and the number of
issued polls are all unchanged, for every prior state. -/
theorem offline_event_frame (s : VPState) :
    (handleNetworkOffline s).networkError = true ∧
    (handleNetworkOffline s).statusText = "Network Error" ∧
    (handleNetworkOffline s).retryCount = s.retryCount ∧
    (handleNetworkOffline s).pendingRetryTimeouts = s.pendingRetryTimeouts ∧
    (handleNetworkOffline s).retryDelaysScheduled = s.retryDelaysScheduled ∧
    (handleNetworkOffline s).pollRequests = s.pollRequests := by
  refine ⟨?_, ?_, ?_, ?_, ?_, ?_⟩ <;> rfl
